import Mathlib

/-!
Shallow embedding of the Smart Collections API (Bun/Hono/Drizzle/Postgres
service in `src/routes/collections.ts`, schema in `src/schema.ts`, capacity
trigger in `drizzle/migrations/0000_mean_mandrill.sql`).

Rows of the three tables are records; the database is a `DbState` carrying the
row lists, the serial counters, and a logical clock standing in for `now()`.
Each HTTP handler becomes a pure function from its parsed inputs and a
`DbState` to a result (`Except ErrResp _`) and the committed post-state; the
transaction-and-row-lock discipline of the source serialises the handlers, so
committed states are exactly the states reachable by running the handlers one
after the other.
-/

/-- Row of the `users` table (`schema.ts`). -/
structure UserRow where
  id : String
  createdAt : Nat
deriving DecidableEq, Repr

/-- Row of the `collections` table (`schema.ts`). -/
structure CollectionRow where
  id : Nat
  userId : String
  name : String
  description : Option String
  createdAt : Nat
  updatedAt : Nat
deriving DecidableEq, Repr

/-- Row of the `collection_items` table (`schema.ts`); `note` is nullable. -/
structure ItemRow where
  id : Nat
  collectionId : Nat
  itemId : String
  note : Option String
  createdAt : Nat
deriving DecidableEq, Repr

/-- The database: the three tables, the two serial counters, and a logical
clock standing in for `now()` (strictly increasing across committed writes). -/
structure DbState where
  users : List UserRow
  collections : List CollectionRow
  collectionItems : List ItemRow
  nextCollectionId : Nat
  nextItemId : Nat
  clock : Nat
deriving DecidableEq, Repr

/-- A finished error response: HTTP status plus the `{ error: message }` body. -/
structure ErrResp where
  status : Nat
  error : String
deriving DecidableEq, Repr

def MAX_ITEMS_PER_COLLECTION : Nat := 5

def MAX_NAME_ATTEMPTS : Nat := 25

def initState : DbState := ⟨[], [], [], 1, 1, 0⟩

/-- `SELECT ... FROM collections WHERE id = cid AND user_id = u` (single row). -/
def findCollection (s : DbState) (cid : Nat) (u : String) : Option CollectionRow :=
  s.collections.find? (fun c => c.id == cid && c.userId == u)

/-- `SELECT ... FROM collection_items WHERE collection_id = cid AND item_id = itemId`. -/
def findItem (s : DbState) (cid : Nat) (itemId : String) : Option ItemRow :=
  s.collectionItems.find? (fun r => r.collectionId == cid && r.itemId == itemId)

/-- Number of `collection_items` rows of collection `cid`. -/
def itemCount (s : DbState) (cid : Nat) : Nat :=
  s.collectionItems.countP (fun r => r.collectionId == cid)

/-- Does user `u` already own a collection named `name`? (the
`collections_user_name_key` unique index is the arbiter). -/
def nameTaken (s : DbState) (u name : String) : Bool :=
  s.collections.any (fun c => c.userId == u && c.name == name)

/-- `INSERT INTO users ... ON CONFLICT DO NOTHING` (`ensureUserExists`). -/
def ensureUserExists (u : String) (s : DbState) : DbState :=
  if s.users.any (fun r => r.id == u) then s
  else { s with users := s.users ++ [⟨u, s.clock⟩] }

/-- Whitespace trimming (`name.trim()` in the route, `btrim` in the score
query), written as structural recursion over the character list so that it
evaluates definitionally: drop leading and trailing whitespace. -/
def strTrim (t : String) : String :=
  String.mk
    (((t.data.dropWhile Char.isWhitespace).reverse.dropWhile
        Char.isWhitespace).reverse)

/-- The candidate of the naming loop: the base name unmodified at attempt 0,
then `"<base> (<attempt>)"`. -/
def candidateName (base : String) (attempt : Nat) : String :=
  if attempt == 0 then base else base ++ " (" ++ toString attempt ++ ")"

/-- The `while (attempt < MAX_NAME_ATTEMPTS)` insert-and-catch-conflict loop of
`POST /collections`, as fuel recursion: a unique violation (candidate already
taken) advances the attempt counter, exhausting the budget is the 500. -/
def tryInsertCollection (u base : String) (descr : Option String) :
    Nat → Nat → DbState → Except ErrResp CollectionRow × DbState
  | _, 0, s => (Except.error ⟨500, "Failed to generate unique collection name"⟩, s)
  | attempt, fuel + 1, s =>
    let candidate := candidateName base attempt
    if nameTaken s u candidate then
      tryInsertCollection u base descr (attempt + 1) fuel s
    else
      let row : CollectionRow :=
        ⟨s.nextCollectionId, u, candidate, descr, s.clock, s.clock⟩
      (Except.ok row,
        { s with
          collections := s.collections ++ [row]
          nextCollectionId := s.nextCollectionId + 1
          clock := s.clock + 1 })

/-- `POST /collections`: zod body check (`name` of length ≥ 1), then
`ensureUserExists`, then the trimmed-name emptiness check, then the naming
loop. -/
def createCollection (u name : String) (descr : Option String) (s : DbState) :
    Except ErrResp CollectionRow × DbState :=
  if name.length < 1 then (Except.error ⟨400, "Invalid request body"⟩, s)
  else
    let s1 := ensureUserExists u s
    let base := strTrim name
    if base == "" then (Except.error ⟨400, "Name cannot be empty"⟩, s1)
    else tryInsertCollection u base descr 0 MAX_NAME_ATTEMPTS s1

/-- `POST /collections/:id/items`: id param check, zod body check, then the
transaction — lock+fetch collection (404), duplicate probe (409), full-set
count against the cap (400), insert. An error aborts the transaction, so the
pre-state is returned unchanged. -/
def addItem (u : String) (cid : Nat) (itemId : String) (note : Option String)
    (s : DbState) : Except ErrResp Unit × DbState :=
  if cid == 0 then (Except.error ⟨400, "Invalid collection id"⟩, s)
  else if itemId.length < 1 then (Except.error ⟨400, "Invalid request body"⟩, s)
  else
    match findCollection s cid u with
    | none => (Except.error ⟨404, "Collection not found"⟩, s)
    | some _ =>
      match findItem s cid itemId with
      | some _ => (Except.error ⟨409, "Item already exists in collection"⟩, s)
      | none =>
        if MAX_ITEMS_PER_COLLECTION ≤ itemCount s cid then
          (Except.error ⟨400, "Collection is full"⟩, s)
        else
          (Except.ok (),
            { s with
              collectionItems :=
                s.collectionItems ++ [⟨s.nextItemId, cid, itemId, note, s.clock⟩]
              nextItemId := s.nextItemId + 1
              clock := s.clock + 1 })

/-- `PUT /collections/move-item`: zod body check, identical-ids check, then the
transaction — lock source (404), lock target (404), fetch the item in the
source (404), count the target against the cap (400), duplicate probe in the
target (409), insert into the target carrying the note, delete the source row
by primary key. Any error rolls the transaction back, returning the pre-state. -/
def moveItem (u itemId : String) (src tgt : Nat) (s : DbState) :
    Except ErrResp Unit × DbState :=
  if itemId.length < 1 || src == 0 || tgt == 0 then
    (Except.error ⟨400, "Invalid request body"⟩, s)
  else if src == tgt then
    (Except.error ⟨400, "Source and target collections must differ"⟩, s)
  else
    match findCollection s src u with
    | none => (Except.error ⟨404, "Source collection not found"⟩, s)
    | some _ =>
      match findCollection s tgt u with
      | none => (Except.error ⟨404, "Target collection not found"⟩, s)
      | some _ =>
        match findItem s src itemId with
        | none => (Except.error ⟨404, "Item not found in source collection"⟩, s)
        | some item =>
          if MAX_ITEMS_PER_COLLECTION ≤ itemCount s tgt then
            (Except.error ⟨400, "Target collection is full"⟩, s)
          else
            match findItem s tgt itemId with
            | some _ =>
              (Except.error ⟨409, "Item already exists in target collection"⟩, s)
            | none =>
              (Except.ok (),
                { s with
                  collectionItems :=
                    (s.collectionItems ++
                      [(⟨s.nextItemId, tgt, itemId, item.note, s.clock⟩ : ItemRow)]).filter
                      (fun r => r.id != item.id)
                  nextItemId := s.nextItemId + 1
                  clock := s.clock + 1 })

/-- One row of the `GET /collections` response. -/
structure ListRow where
  id : Nat
  name : String
  description : Option String
  createdAt : Nat
  updatedAt : Nat
  itemCount : Nat
  relevanceScore : Nat
deriving DecidableEq, Repr

/-- The `CASE WHEN btrim(note) <> '' THEN 2 ELSE 1 END` weight of one joined
row: a NULL note makes the comparison NULL, which falls to the ELSE branch. -/
def itemWeight (r : ItemRow) : Nat :=
  match r.note with
  | some n => if strTrim n ≠ "" then 2 else 1
  | none => 1

/-- The aggregated row the `GET /collections` query produces for one
collection. The LEFT JOIN pads a collection without items with a single
all-NULL item row: `COUNT(collection_items.id)` skips it (count 0), but the
CASE expression evaluates to its ELSE branch on it, so the group SUM is 1, and
the outer COALESCE never sees a NULL. -/
def rowFor (s : DbState) (c : CollectionRow) : ListRow :=
  let items := s.collectionItems.filter (fun r => r.collectionId == c.id)
  { id := c.id
    name := c.name
    description := c.description
    createdAt := c.createdAt
    updatedAt := c.updatedAt
    itemCount := items.length
    relevanceScore := if items.isEmpty then 1 else (items.map itemWeight).sum }

/-- The `ORDER BY relevance_score DESC, created_at DESC` order. -/
def listOrder (a b : ListRow) : Prop :=
  b.relevanceScore < a.relevanceScore ∨
    (a.relevanceScore = b.relevanceScore ∧ b.createdAt ≤ a.createdAt)

instance : DecidableRel listOrder := fun a b => by
  unfold listOrder; infer_instance

instance : IsTotal ListRow listOrder := by
  constructor
  intro a b
  unfold listOrder
  rcases Nat.lt_trichotomy a.relevanceScore b.relevanceScore with h | h | h
  · exact Or.inr (Or.inl h)
  · rcases Nat.le_total a.createdAt b.createdAt with h' | h'
    · exact Or.inr (Or.inr ⟨h.symm, h'⟩)
    · exact Or.inl (Or.inr ⟨h, h'⟩)
  · exact Or.inl (Or.inl h)

instance : IsTrans ListRow listOrder := by
  constructor
  intro a b c hab hbc
  unfold listOrder at *
  rcases hab with h | ⟨h1, h2⟩
  · rcases hbc with h' | ⟨h1', h2'⟩
    · exact Or.inl (h'.trans h)
    · exact Or.inl (h1' ▸ h)
  · rcases hbc with h' | ⟨h1', h2'⟩
    · exact Or.inl (h1 ▸ h')
    · exact Or.inr ⟨h1.trans h1', h2'.trans h2⟩

/-- `GET /collections`: the grouped LEFT JOIN rows for the caller's
collections, ordered by relevance score descending then creation time
descending. -/
def listCollections (u : String) (s : DbState) : List ListRow :=
  List.insertionSort listOrder
    ((s.collections.filter (fun c => c.userId == u)).map (rowFor s))

/-! ## Postgres error remapping (`getPgError` / `isUniqueViolation` /
`isLimitViolation` and the catch blocks of the item routes) -/

/-- A postgres error as the service inspects it: SQLSTATE code and message. -/
structure PgError where
  code : String
  message : String
deriving DecidableEq, Repr

/-- `isUniqueViolation`: SQLSTATE 23505. -/
def isUniqueViolation (e : PgError) : Bool := e.code == "23505"

/-- Does `needle` start `hay`? (character-list form of string search). -/
def leadsChars : List Char → List Char → Bool
  | [], _ => true
  | _ :: _, [] => false
  | a :: as, b :: bs => a == b && leadsChars as bs

/-- Does `needle` occur contiguously in `hay`? Embeds
`String.prototype.includes`. -/
def occursChars (needle : List Char) : List Char → Bool
  | [] => leadsChars needle []
  | hay@(_ :: rest) => leadsChars needle hay || occursChars needle rest

/-- `message.toLowerCase()` (the messages involved are ASCII). -/
def lowerStr (s : String) : String := String.mk (s.data.map Char.toLower)

/-- `isLimitViolation`: the message, lowercased, contains "limit reached". -/
def isLimitViolation (e : PgError) : Bool :=
  occursChars "limit reached".data (lowerStr e.message).data

/-- The catch block of `POST /collections/:id/items` for a non-HTTPException
error: limit violation ↦ 400 full, unique violation ↦ 409 duplicate, anything
else rethrows and reaches `app.onError`, which answers 500. -/
def addItemCatch (e : PgError) : ErrResp :=
  if isLimitViolation e then ⟨400, "Collection is full"⟩
  else if isUniqueViolation e then ⟨409, "Item already exists in collection"⟩
  else ⟨500, "Internal Server Error"⟩

/-- The catch block of `PUT /collections/move-item`, same shape. -/
def moveItemCatch (e : PgError) : ErrResp :=
  if isLimitViolation e then ⟨400, "Target collection is full"⟩
  else if isUniqueViolation e then ⟨409, "Item already exists in target collection"⟩
  else ⟨500, "Internal Server Error"⟩

/-- The error the `enforce_collection_item_limit` trigger raises
(`0000_mean_mandrill.sql`): `RAISE EXCEPTION 'Collection is full' USING
ERRCODE = 'P0001'`. -/
def triggerCapacityError : PgError := ⟨"P0001", "Collection is full"⟩

/-- A unique-index violation as postgres reports it for the
`collection_items_collection_item_key` index. -/
def duplicateItemError : PgError :=
  ⟨"23505", "duplicate key value violates unique constraint \x22collection_items_collection_item_key\x22"⟩

/-! ## Reachable committed states and their invariants -/

/-- The committed states: those produced from the empty database by any
sequence of the three mutating handlers (the read route writes nothing). -/
inductive Reachable : DbState → Prop
  | init : Reachable initState
  | create (u name : String) (d : Option String) {s : DbState} :
      Reachable s → Reachable (createCollection u name d s).2
  | add (u : String) (cid : Nat) (itemId : String) (note : Option String)
      {s : DbState} : Reachable s → Reachable (addItem u cid itemId note s).2
  | move (u itemId : String) (src tgt : Nat) {s : DbState} :
      Reachable s → Reachable (moveItem u itemId src tgt s).2

/-- Capacity invariant: no collection holds more than 5 items. -/
def CapOK (s : DbState) : Prop :=
  ∀ c, itemCount s c ≤ MAX_ITEMS_PER_COLLECTION

/-- Well-formedness of the item table: primary keys are pairwise distinct and
below the serial counter. -/
def WF (s : DbState) : Prop :=
  (s.collectionItems.map ItemRow.id).Nodup ∧
    ∀ r ∈ s.collectionItems, r.id < s.nextItemId

/-- Every collection row's owner exists in the users table. -/
def OwnersExist (s : DbState) : Prop :=
  ∀ c ∈ s.collections, ∃ r ∈ s.users, r.id = c.userId

/-! ## Concrete committed states used by the witnesses -/

def wsColl : DbState := (createCollection "u" "C" none initState).2

def wsOne : DbState := (addItem "u" 1 "x" none wsColl).2

def wsFull : DbState :=
  (addItem "u" 1 "i5" none
    ((addItem "u" 1 "i4" none
      ((addItem "u" 1 "i3" none
        ((addItem "u" 1 "i2" none
          ((addItem "u" 1 "i1" none wsColl).2)).2)).2)).2)).2

def wsTwo : DbState :=
  (addItem "u" 2 "m1" none (createCollection "u" "S" none wsFull).2).2

def wsAB : DbState :=
  (addItem "u" 1 "x" (some "n")
    ((createCollection "u" "B" none
      ((createCollection "u" "A" none initState).2)).2)).2

def wsNames : DbState :=
  (createCollection "u" "A (1)" none (createCollection "u" "A" none initState).2).2

def wsOrd : DbState :=
  (addItem "u" 3 "c" (some "note")
    ((createCollection "u" "C" none
      ((addItem "u" 2 "b" none
        ((createCollection "u" "B" none
          ((addItem "u" 1 "a" (some "note")
            ((createCollection "u" "A" none initState).2)).2)).2)).2)).2)).2

def wsExhaust : DbState :=
  { users := [⟨"u", 0⟩]
    collections := (List.range 25).map
      (fun k => ⟨k + 1, "u", candidateName "A" k, none, 0, 0⟩)
    collectionItems := []
    nextCollectionId := 26
    nextItemId := 1
    clock := 0 }

/-! ## Frame and post-state lemmas -/

theorem ensureUserExists_frame (u : String) (s : DbState) :
    (ensureUserExists u s).collections = s.collections ∧
      (ensureUserExists u s).collectionItems = s.collectionItems ∧
      (ensureUserExists u s).nextItemId = s.nextItemId := by
  unfold ensureUserExists
  split <;> exact ⟨rfl, rfl, rfl⟩

theorem ensureUserExists_mem (u : String) (s : DbState) :
    ∃ r ∈ (ensureUserExists u s).users, r.id = u := by
  unfold ensureUserExists
  split
  · rename_i h
    obtain ⟨r, hr, hid⟩ := List.any_eq_true.mp h
    exact ⟨r, hr, by simpa using hid⟩
  · exact ⟨⟨u, s.clock⟩, by simp⟩

theorem ensureUserExists_users_mono (u : String) (s : DbState) :
    ∀ r ∈ s.users, r ∈ (ensureUserExists u s).users := by
  intro r hr
  unfold ensureUserExists
  split
  · exact hr
  · exact List.mem_append_left _ hr

theorem tryInsertCollection_frame (u base : String) (descr : Option String) :
    ∀ fuel attempt s,
      (tryInsertCollection u base descr attempt fuel s).2.collectionItems =
          s.collectionItems ∧
        (tryInsertCollection u base descr attempt fuel s).2.nextItemId =
          s.nextItemId ∧
        (tryInsertCollection u base descr attempt fuel s).2.users = s.users := by
  intro fuel
  induction fuel with
  | zero => intro attempt s; exact ⟨rfl, rfl, rfl⟩
  | succ fuel ih =>
    intro attempt s
    unfold tryInsertCollection
    dsimp only
    split
    · exact ih (attempt + 1) s
    · exact ⟨rfl, rfl, rfl⟩

theorem tryInsertCollection_collections (u base : String) (descr : Option String) :
    ∀ fuel attempt s,
      (tryInsertCollection u base descr attempt fuel s).2.collections =
          s.collections ∨
        ∃ row : CollectionRow, row.userId = u ∧
          (tryInsertCollection u base descr attempt fuel s).2.collections =
            s.collections ++ [row] := by
  intro fuel
  induction fuel with
  | zero => intro attempt s; exact Or.inl rfl
  | succ fuel ih =>
    intro attempt s
    unfold tryInsertCollection
    dsimp only
    split
    · exact ih (attempt + 1) s
    · exact Or.inr ⟨_, rfl, rfl⟩

theorem createCollection_frame (u name : String) (descr : Option String)
    (s : DbState) :
    (createCollection u name descr s).2.collectionItems = s.collectionItems ∧
      (createCollection u name descr s).2.nextItemId = s.nextItemId := by
  unfold createCollection
  split
  · exact ⟨rfl, rfl⟩
  · dsimp only
    split
    · exact ⟨(ensureUserExists_frame u s).2.1, (ensureUserExists_frame u s).2.2⟩
    · refine ⟨?_, ?_⟩
      · exact ((tryInsertCollection_frame u (strTrim name) descr _ 0 _).1).trans
          (ensureUserExists_frame u s).2.1
      · exact ((tryInsertCollection_frame u (strTrim name) descr _ 0 _).2.1).trans
          (ensureUserExists_frame u s).2.2

theorem addItem_post (u : String) (cid : Nat) (itemId : String)
    (note : Option String) (s : DbState) :
    ((∃ e, (addItem u cid itemId note s).1 = Except.error e) ∧
        (addItem u cid itemId note s).2 = s) ∨
      ((addItem u cid itemId note s).1 = Except.ok () ∧
        (∃ col, findCollection s cid u = some col) ∧
        findItem s cid itemId = none ∧
        itemCount s cid < MAX_ITEMS_PER_COLLECTION ∧
        (addItem u cid itemId note s).2 =
          { s with
            collectionItems :=
              s.collectionItems ++ [⟨s.nextItemId, cid, itemId, note, s.clock⟩]
            nextItemId := s.nextItemId + 1
            clock := s.clock + 1 }) := by
  unfold addItem
  split
  · exact Or.inl ⟨⟨_, rfl⟩, rfl⟩
  split
  · exact Or.inl ⟨⟨_, rfl⟩, rfl⟩
  split
  · exact Or.inl ⟨⟨_, rfl⟩, rfl⟩
  split
  · exact Or.inl ⟨⟨_, rfl⟩, rfl⟩
  split
  · exact Or.inl ⟨⟨_, rfl⟩, rfl⟩
  · refine Or.inr ⟨rfl, ?_, ?_, ?_, rfl⟩
    · exact ⟨_, by assumption⟩
    · assumption
    · exact Nat.lt_of_not_le (by assumption)

theorem moveItem_post (u itemId : String) (src tgt : Nat) (s : DbState) :
    ((∃ e, (moveItem u itemId src tgt s).1 = Except.error e) ∧
        (moveItem u itemId src tgt s).2 = s) ∨
      ∃ item, (moveItem u itemId src tgt s).1 = Except.ok () ∧
        findItem s src itemId = some item ∧
        src ≠ tgt ∧
        itemCount s tgt < MAX_ITEMS_PER_COLLECTION ∧
        findItem s tgt itemId = none ∧
        (moveItem u itemId src tgt s).2 =
          { s with
            collectionItems :=
              (s.collectionItems ++
                [(⟨s.nextItemId, tgt, itemId, item.note, s.clock⟩ : ItemRow)]).filter
                (fun r => r.id != item.id)
            nextItemId := s.nextItemId + 1
            clock := s.clock + 1 } := by
  unfold moveItem
  split
  · exact Or.inl ⟨⟨_, rfl⟩, rfl⟩
  split
  · exact Or.inl ⟨⟨_, rfl⟩, rfl⟩
  split
  · exact Or.inl ⟨⟨_, rfl⟩, rfl⟩
  split
  · exact Or.inl ⟨⟨_, rfl⟩, rfl⟩
  split
  · exact Or.inl ⟨⟨_, rfl⟩, rfl⟩
  split
  · exact Or.inl ⟨⟨_, rfl⟩, rfl⟩
  split
  · exact Or.inl ⟨⟨_, rfl⟩, rfl⟩
  · refine Or.inr ⟨_, rfl, ?_, ?_, ?_, ?_, rfl⟩
    · assumption
    · intro h
      subst h
      simp_all
    · exact Nat.lt_of_not_le (by assumption)
    · assumption

/-! ## Counting helpers -/

theorem countP_filter_ne_of_mem {l : List ItemRow} {item : ItemRow}
    (hmem : item ∈ l) (hnd : (l.map ItemRow.id).Nodup) (p : ItemRow → Bool) :
    (l.filter (fun r => r.id != item.id)).countP p +
        (if p item then 1 else 0) = l.countP p := by
  induction l with
  | nil => cases hmem
  | cons a l ih =>
    simp only [List.map_cons, List.nodup_cons, List.mem_map] at hnd
    rcases List.mem_cons.mp hmem with heq | hmem'
    · subst heq
      have hkeep : l.filter (fun r => r.id != item.id) = l := by
        refine List.filter_eq_self.mpr ?_
        intro r hr
        simp only [bne_iff_ne, ne_eq]
        intro hid
        exact hnd.1 ⟨r, hr, hid⟩
      simp [List.filter_cons, hkeep, List.countP_cons]
    · have hid : (a.id != item.id) = true := by
        simp only [bne_iff_ne, ne_eq]
        intro hid
        exact hnd.1 ⟨item, hmem', hid.symm⟩
      have hrec := ih hmem' hnd.2
      simp [List.filter_cons, hid, List.countP_cons]
      simp at hrec
      omega

theorem findItem_spec {s : DbState} {cid : Nat} {itemId : String} {item : ItemRow}
    (h : findItem s cid itemId = some item) :
    item ∈ s.collectionItems ∧ item.collectionId = cid ∧ item.itemId = itemId := by
  unfold findItem at h
  have hmem := List.mem_of_find?_eq_some h
  have hp := List.find?_some h
  simp only [Bool.and_eq_true, beq_iff_eq] at hp
  exact ⟨hmem, hp.1, hp.2⟩

theorem findItem_none_spec {s : DbState} {cid : Nat} {itemId : String}
    (h : findItem s cid itemId = none) :
    ∀ r ∈ s.collectionItems, ¬(r.collectionId = cid ∧ r.itemId = itemId) := by
  unfold findItem at h
  intro r hr hcontra
  have := List.find?_eq_none.mp h r hr
  simp only [Bool.and_eq_true, beq_iff_eq] at this
  exact this ⟨hcontra.1, hcontra.2⟩

theorem countP_append_single (it : ItemRow) (c : Nat) (l : List ItemRow) :
    (l ++ [it]).countP (fun r => r.collectionId == c) =
      l.countP (fun r => r.collectionId == c) +
        (if it.collectionId = c then 1 else 0) := by
  rw [List.countP_append]
  simp [List.countP_cons]

theorem addItem_itemCount (u : String) (cid : Nat) (itemId : String)
    (note : Option String) (s : DbState)
    (heq : (addItem u cid itemId note s).2 =
      { s with
        collectionItems :=
          s.collectionItems ++ [⟨s.nextItemId, cid, itemId, note, s.clock⟩]
        nextItemId := s.nextItemId + 1
        clock := s.clock + 1 }) (c : Nat) :
    itemCount (addItem u cid itemId note s).2 c =
      itemCount s c + (if cid = c then 1 else 0) := by
  rw [heq]
  unfold itemCount
  have happ := countP_append_single
    (⟨s.nextItemId, cid, itemId, note, s.clock⟩ : ItemRow) c s.collectionItems
  dsimp only at happ ⊢
  exact happ

theorem addItem_capOK {s : DbState} (h : CapOK s) (u : String) (cid : Nat)
    (itemId : String) (note : Option String) :
    CapOK (addItem u cid itemId note s).2 := by
  rcases addItem_post u cid itemId note s with ⟨_, heq⟩ | ⟨_, _, _, hlt, heq⟩
  · rw [heq]; exact h
  · intro c
    rw [addItem_itemCount u cid itemId note s heq c]
    have h1 := h c
    by_cases hc : cid = c
    · subst hc
      rw [if_pos rfl]
      omega
    · rw [if_neg hc]
      omega

theorem moveItem_capOK {s : DbState} (h : CapOK s) (u itemId : String)
    (src tgt : Nat) : CapOK (moveItem u itemId src tgt s).2 := by
  rcases moveItem_post u itemId src tgt s with ⟨_, heq⟩ | ⟨item, _, hitem, hne, hlt, hdup, heq⟩
  · rw [heq]; exact h
  · intro c
    have hle : itemCount (moveItem u itemId src tgt s).2 c ≤
        itemCount s c + (if tgt = c then 1 else 0) := by
      rw [heq]
      unfold itemCount
      have hsub :
          ((s.collectionItems ++
              [(⟨s.nextItemId, tgt, itemId, item.note, s.clock⟩ : ItemRow)]).filter
              (fun r => r.id != item.id)).countP (fun r => r.collectionId == c) ≤
            (s.collectionItems ++
              [(⟨s.nextItemId, tgt, itemId, item.note, s.clock⟩ : ItemRow)]).countP
              (fun r => r.collectionId == c) :=
        (List.filter_sublist _).countP_le _
      have happ := countP_append_single
        (⟨s.nextItemId, tgt, itemId, item.note, s.clock⟩ : ItemRow) c s.collectionItems
      dsimp only at happ hsub ⊢
      omega
    have h1 := h c
    by_cases hc : tgt = c
    · subst hc
      rw [if_pos rfl] at hle
      omega
    · rw [if_neg hc] at hle
      omega

theorem createCollection_capOK {s : DbState} (h : CapOK s) (u name : String)
    (d : Option String) : CapOK (createCollection u name d s).2 := by
  intro c
  have hframe := (createCollection_frame u name d s).1
  unfold itemCount
  rw [hframe]
  exact h c

theorem createCollection_wf {s : DbState} (h : WF s) (u name : String)
    (d : Option String) : WF (createCollection u name d s).2 := by
  obtain ⟨hnd, hlt⟩ := h
  have hframe := createCollection_frame u name d s
  exact ⟨hframe.1 ▸ hnd, fun r hr => hframe.2 ▸ hlt r (hframe.1 ▸ hr)⟩

theorem addItem_wf {s : DbState} (h : WF s) (u : String) (cid : Nat)
    (itemId : String) (note : Option String) : WF (addItem u cid itemId note s).2 := by
  obtain ⟨hnd, hlt⟩ := h
  rcases addItem_post u cid itemId note s with ⟨_, heq⟩ | ⟨_, _, _, _, heq⟩
  · rw [heq]; exact ⟨hnd, hlt⟩
  · rw [heq]
    constructor
    · simp only [List.map_append, List.map_cons, List.map_nil]
      rw [List.nodup_append]
      refine ⟨hnd, List.nodup_singleton _, ?_⟩
      intro x hx
      simp only [List.mem_singleton]
      intro hx1
      subst hx1
      obtain ⟨r, hr, hrid⟩ := List.mem_map.mp hx
      exact absurd hrid (Nat.ne_of_lt (hlt r hr))
    · intro r hr
      rcases List.mem_append.mp hr with hr' | hr'
      · exact Nat.lt_succ_of_lt (hlt r hr')
      · simp only [List.mem_singleton] at hr'
        subst hr'
        exact Nat.lt_succ_self _

theorem moveItem_wf {s : DbState} (h : WF s) (u itemId : String) (src tgt : Nat) :
    WF (moveItem u itemId src tgt s).2 := by
  obtain ⟨hnd, hlt⟩ := h
  rcases moveItem_post u itemId src tgt s with ⟨_, heq⟩ | ⟨item, _, hitem, hne, hcap, hdup, heq⟩
  · rw [heq]; exact ⟨hnd, hlt⟩
  · rw [heq]
    have hnd' : ((s.collectionItems ++
        [(⟨s.nextItemId, tgt, itemId, item.note, s.clock⟩ : ItemRow)]).map
        ItemRow.id).Nodup := by
      simp only [List.map_append, List.map_cons, List.map_nil]
      rw [List.nodup_append]
      refine ⟨hnd, List.nodup_singleton _, ?_⟩
      intro x hx
      simp only [List.mem_singleton]
      intro hx1
      subst hx1
      obtain ⟨r, hr, hrid⟩ := List.mem_map.mp hx
      exact absurd hrid (Nat.ne_of_lt (hlt r hr))
    constructor
    · exact hnd'.sublist ((List.filter_sublist _).map ItemRow.id)
    · intro r hr
      have hr' := (List.filter_sublist _).mem hr
      rcases List.mem_append.mp hr' with hr'' | hr''
      · exact Nat.lt_succ_of_lt (hlt r hr'')
      · simp only [List.mem_singleton] at hr''
        subst hr''
        exact Nat.lt_succ_self _

theorem reachable_capOK {s : DbState} (h : Reachable s) : CapOK s := by
  induction h with
  | init => intro c; simp [itemCount, initState]
  | create u name d _ ih => exact createCollection_capOK ih u name d
  | add u cid itemId note _ ih => exact addItem_capOK ih u cid itemId note
  | move u itemId src tgt _ ih => exact moveItem_capOK ih u itemId src tgt

theorem reachable_wf {s : DbState} (h : Reachable s) : WF s := by
  induction h with
  | init => exact ⟨List.nodup_nil, by intro r hr; cases hr⟩
  | create u name d _ ih => exact createCollection_wf ih u name d
  | add u cid itemId note _ ih => exact addItem_wf ih u cid itemId note
  | move u itemId src tgt _ ih => exact moveItem_wf ih u itemId src tgt

/-! ## Frame facts of the item routes and the ownership invariant -/

theorem addItem_users_collections (u : String) (cid : Nat) (itemId : String)
    (note : Option String) (s : DbState) :
    (addItem u cid itemId note s).2.users = s.users ∧
      (addItem u cid itemId note s).2.collections = s.collections := by
  rcases addItem_post u cid itemId note s with ⟨_, heq⟩ | ⟨_, _, _, _, heq⟩ <;>
    rw [heq] <;> exact ⟨rfl, rfl⟩

theorem moveItem_users_collections (u itemId : String) (src tgt : Nat)
    (s : DbState) :
    (moveItem u itemId src tgt s).2.users = s.users ∧
      (moveItem u itemId src tgt s).2.collections = s.collections := by
  rcases moveItem_post u itemId src tgt s with ⟨_, heq⟩ | ⟨_, _, _, _, _, _, heq⟩ <;>
    rw [heq] <;> exact ⟨rfl, rfl⟩

theorem createCollection_owners {s : DbState} (h : OwnersExist s) (u name : String)
    (d : Option String) : OwnersExist (createCollection u name d s).2 := by
  unfold createCollection
  split
  · exact h
  · dsimp only
    split
    · intro c hc
      rw [(ensureUserExists_frame u s).1] at hc
      obtain ⟨r, hr, hrid⟩ := h c hc
      exact ⟨r, ensureUserExists_users_mono u s r hr, hrid⟩
    · intro c hc
      have husers := (tryInsertCollection_frame u (strTrim name) d MAX_NAME_ATTEMPTS 0
        (ensureUserExists u s)).2.2
      rw [husers]
      rcases tryInsertCollection_collections u (strTrim name) d MAX_NAME_ATTEMPTS 0
          (ensureUserExists u s) with hcol | ⟨row, hrowu, hcol⟩
      · rw [hcol, (ensureUserExists_frame u s).1] at hc
        obtain ⟨r, hr, hrid⟩ := h c hc
        exact ⟨r, ensureUserExists_users_mono u s r hr, hrid⟩
      · rw [hcol] at hc
        rcases List.mem_append.mp hc with hc' | hc'
        · rw [(ensureUserExists_frame u s).1] at hc'
          obtain ⟨r, hr, hrid⟩ := h c hc'
          exact ⟨r, ensureUserExists_users_mono u s r hr, hrid⟩
        · simp only [List.mem_singleton] at hc'
          subst hc'
          obtain ⟨r, hr, hrid⟩ := ensureUserExists_mem u s
          exact ⟨r, hr, hrid.trans hrowu.symm⟩

theorem reachable_owners {s : DbState} (h : Reachable s) : OwnersExist s := by
  induction h with
  | init => intro c hc; cases hc
  | create u name d _ ih => exact createCollection_owners ih u name d
  | add u cid itemId note _ ih =>
    intro c hc
    rw [(addItem_users_collections u cid itemId note _).1]
    rw [(addItem_users_collections u cid itemId note _).2] at hc
    exact ih c hc
  | move u itemId src tgt _ ih =>
    intro c hc
    rw [(moveItem_users_collections u itemId src tgt _).1]
    rw [(moveItem_users_collections u itemId src tgt _).2] at hc
    exact ih c hc

/-! ## Error paths return the pre-state -/

theorem addItem_error_state {u : String} {cid : Nat} {itemId : String}
    {note : Option String} {s : DbState} {e : ErrResp}
    (h : (addItem u cid itemId note s).1 = Except.error e) :
    (addItem u cid itemId note s).2 = s := by
  rcases addItem_post u cid itemId note s with ⟨_, heq⟩ | ⟨hok, _⟩
  · exact heq
  · rw [hok] at h
    cases h

theorem moveItem_error_state {u itemId : String} {src tgt : Nat} {s : DbState}
    {e : ErrResp} (h : (moveItem u itemId src tgt s).1 = Except.error e) :
    (moveItem u itemId src tgt s).2 = s := by
  rcases moveItem_post u itemId src tgt s with ⟨_, heq⟩ | ⟨_, hok, _⟩
  · exact heq
  · rw [hok] at h
    cases h

/-! ## Exact item counts after a successful move -/

theorem moveItem_ok_counts {s : DbState} (hwf : WF s) (u itemId : String)
    (src tgt : Nat) (hok : (moveItem u itemId src tgt s).1 = Except.ok ()) :
    itemCount (moveItem u itemId src tgt s).2 src + 1 = itemCount s src ∧
      itemCount (moveItem u itemId src tgt s).2 tgt = itemCount s tgt + 1 ∧
      ∃ item, findItem s src itemId = some item ∧
        (⟨s.nextItemId, tgt, itemId, item.note, s.clock⟩ : ItemRow) ∈
          (moveItem u itemId src tgt s).2.collectionItems := by
  obtain ⟨hnd, hbound⟩ := hwf
  rcases moveItem_post u itemId src tgt s with ⟨⟨e, herr⟩, _⟩ | ⟨item, _, hitem, hne, hlt, hdup, heq⟩
  · rw [herr] at hok
    cases hok
  · obtain ⟨hmem, hcid, hiid⟩ := findItem_spec hitem
    have hmem' : item ∈ s.collectionItems ++
        [(⟨s.nextItemId, tgt, itemId, item.note, s.clock⟩ : ItemRow)] :=
      List.mem_append_left _ hmem
    have hnd' : ((s.collectionItems ++
        [(⟨s.nextItemId, tgt, itemId, item.note, s.clock⟩ : ItemRow)]).map
        ItemRow.id).Nodup := by
      simp only [List.map_append, List.map_cons, List.map_nil]
      rw [List.nodup_append]
      refine ⟨hnd, List.nodup_singleton _, ?_⟩
      intro x hx
      simp only [List.mem_singleton]
      intro hx1
      subst hx1
      obtain ⟨r, hr, hrid⟩ := List.mem_map.mp hx
      exact absurd hrid (Nat.ne_of_lt (hbound r hr))
    have hitems : (moveItem u itemId src tgt s).2.collectionItems =
        (s.collectionItems ++
          [(⟨s.nextItemId, tgt, itemId, item.note, s.clock⟩ : ItemRow)]).filter
          (fun r => r.id != item.id) := by
      rw [heq]
    have hne' : ¬(tgt = src) := fun h => hne h.symm
    have hneid : s.nextItemId ≠ item.id := (Nat.ne_of_lt (hbound item hmem)).symm
    refine ⟨?_, ?_, item, hitem, ?_⟩
    · unfold itemCount
      rw [hitems]
      have hkey := countP_filter_ne_of_mem hmem' hnd'
        (fun r => r.collectionId == src)
      rw [hcid] at hkey
      simp [hne', hneid] at hkey ⊢
      omega
    · unfold itemCount
      rw [hitems]
      have hkey := countP_filter_ne_of_mem hmem' hnd'
        (fun r => r.collectionId == tgt)
      rw [hcid] at hkey
      simp [hne, hneid] at hkey ⊢
      omega
    · rw [hitems]
      refine List.mem_filter.mpr ⟨List.mem_append_right _ (List.mem_singleton.mpr rfl), ?_⟩
      simpa using hneid

/-! ## Branch characterizations of the item routes -/

theorem length_pos_of_ne_empty {t : String} (h : t ≠ "") : ¬(t.length < 1) := by
  intro hl
  apply h
  have h0 : t.length = 0 := Nat.lt_one_iff.mp hl
  cases t with
  | mk data =>
    simp [String.length] at h0
    simp [h0]

theorem addItem_notFound (u : String) (cid : Nat) (itemId : String)
    (note : Option String) (s : DbState) (hcid : cid ≠ 0) (hitm : itemId ≠ "")
    (h : findCollection s cid u = none) :
    addItem u cid itemId note s =
      (Except.error ⟨404, "Collection not found"⟩, s) := by
  have h1 : (cid == 0) = false := by simpa using hcid
  have h2 := length_pos_of_ne_empty hitm
  simp [addItem, h1, h2, h]

theorem addItem_conflict (u : String) (cid : Nat) (itemId : String)
    (note : Option String) (s : DbState) (hcid : cid ≠ 0) (hitm : itemId ≠ "")
    {col : CollectionRow} (hcol : findCollection s cid u = some col)
    {r : ItemRow} (hdup : findItem s cid itemId = some r) :
    addItem u cid itemId note s =
      (Except.error ⟨409, "Item already exists in collection"⟩, s) := by
  have h1 : (cid == 0) = false := by simpa using hcid
  have h2 := length_pos_of_ne_empty hitm
  simp [addItem, h1, h2, hcol, hdup]

theorem addItem_full (u : String) (cid : Nat) (itemId : String)
    (note : Option String) (s : DbState) (hcid : cid ≠ 0) (hitm : itemId ≠ "")
    {col : CollectionRow} (hcol : findCollection s cid u = some col)
    (hdup : findItem s cid itemId = none)
    (hfull : MAX_ITEMS_PER_COLLECTION ≤ itemCount s cid) :
    addItem u cid itemId note s = (Except.error ⟨400, "Collection is full"⟩, s) := by
  have h1 : (cid == 0) = false := by simpa using hcid
  have h2 := length_pos_of_ne_empty hitm
  simp [addItem, h1, h2, hcol, hdup, hfull]

theorem moveItem_full (u itemId : String) (src tgt : Nat) (s : DbState)
    (hitm : itemId ≠ "") (hsrc0 : src ≠ 0) (htgt0 : tgt ≠ 0) (hne : src ≠ tgt)
    {colS : CollectionRow} (hcolS : findCollection s src u = some colS)
    {colT : CollectionRow} (hcolT : findCollection s tgt u = some colT)
    {item : ItemRow} (hitem : findItem s src itemId = some item)
    (hfull : MAX_ITEMS_PER_COLLECTION ≤ itemCount s tgt) :
    moveItem u itemId src tgt s =
      (Except.error ⟨400, "Target collection is full"⟩, s) := by
  have h2 := length_pos_of_ne_empty hitm
  have h3 : (src == 0) = false := by simpa using hsrc0
  have h4 : (tgt == 0) = false := by simpa using htgt0
  have h5 : (src == tgt) = false := by simpa using hne
  simp [moveItem, h2, h3, h4, h5, hcolS, hcolT, hitem, hfull]

theorem moveItem_srcNotFound (u itemId : String) (src tgt : Nat) (s : DbState)
    (hitm : itemId ≠ "") (hsrc0 : src ≠ 0) (htgt0 : tgt ≠ 0) (hne : src ≠ tgt)
    (hcolS : findCollection s src u = none) :
    moveItem u itemId src tgt s =
      (Except.error ⟨404, "Source collection not found"⟩, s) := by
  have h2 := length_pos_of_ne_empty hitm
  have h3 : (src == 0) = false := by simpa using hsrc0
  have h4 : (tgt == 0) = false := by simpa using htgt0
  have h5 : (src == tgt) = false := by simpa using hne
  simp [moveItem, h2, h3, h4, h5, hcolS]

/-- If no collection of the state belongs to `u`, every ownership-scoped
lookup fails. -/
theorem findCollection_eq_none_of_not_owner {s : DbState} {u : String}
    (h : ∀ c ∈ s.collections, c.userId ≠ u) (cid : Nat) :
    findCollection s cid u = none := by
  unfold findCollection
  rw [List.find?_eq_none]
  intro c hc
  simp only [Bool.and_eq_true, beq_iff_eq, not_and]
  intro _
  exact h c hc

/-- After a successful add, the just-inserted row is what the duplicate probe
finds. -/
theorem addItem_ok_findItem (u : String) (cid : Nat) (itemId : String)
    (note : Option String) (s : DbState)
    (hok : (addItem u cid itemId note s).1 = Except.ok ()) :
    findItem (addItem u cid itemId note s).2 cid itemId =
        some ⟨s.nextItemId, cid, itemId, note, s.clock⟩ ∧
      findCollection (addItem u cid itemId note s).2 cid u =
        findCollection s cid u ∧
      itemCount (addItem u cid itemId note s).2 cid = itemCount s cid + 1 := by
  rcases addItem_post u cid itemId note s with ⟨⟨e, herr⟩, _⟩ | ⟨_, _, hdup, hlt, heq⟩
  · rw [herr] at hok
    cases hok
  · refine ⟨?_, ?_, ?_⟩
    · rw [heq]
      unfold findItem at hdup ⊢
      simp only
      rw [List.find?_append, hdup]
      simp
    · rw [heq]
      unfold findCollection
      rfl
    · rw [addItem_itemCount u cid itemId note s heq cid, if_pos rfl]

/-! ## The naming resolver -/

theorem nameTaken_ensureUserExists (u v name : String) (s : DbState) :
    nameTaken (ensureUserExists u s) v name = nameTaken s v name := by
  unfold nameTaken
  rw [(ensureUserExists_frame u s).1]

theorem tryInsert_exhaust (u base : String) (d : Option String) :
    ∀ fuel attempt s,
      (∀ k, k < fuel → nameTaken s u (candidateName base (attempt + k)) = true) →
      tryInsertCollection u base d attempt fuel s =
        (Except.error ⟨500, "Failed to generate unique collection name"⟩, s) := by
  intro fuel
  induction fuel with
  | zero => intro attempt s _; rfl
  | succ fuel ih =>
    intro attempt s h
    have h0 : nameTaken s u (candidateName base attempt) = true := by
      have := h 0 (Nat.succ_pos _)
      rwa [Nat.add_zero] at this
    unfold tryInsertCollection
    dsimp only
    rw [if_pos h0]
    refine ih (attempt + 1) s ?_
    intro k hk
    have h1 := h (k + 1) (Nat.succ_lt_succ hk)
    have he : attempt + (k + 1) = attempt + 1 + k := by omega
    rwa [he] at h1

theorem tryInsert_success (u base : String) (d : Option String) :
    ∀ N fuel attempt s, N < fuel →
      (∀ k, k < N → nameTaken s u (candidateName base (attempt + k)) = true) →
      nameTaken s u (candidateName base (attempt + N)) = false →
      tryInsertCollection u base d attempt fuel s =
        (Except.ok ⟨s.nextCollectionId, u, candidateName base (attempt + N), d,
            s.clock, s.clock⟩,
          { s with
            collections := s.collections ++
              [⟨s.nextCollectionId, u, candidateName base (attempt + N), d,
                s.clock, s.clock⟩]
            nextCollectionId := s.nextCollectionId + 1
            clock := s.clock + 1 }) := by
  intro N
  induction N with
  | zero =>
    intro fuel attempt s hfuel _ hfree
    cases fuel with
    | zero => exact absurd hfuel (Nat.not_lt_zero _)
    | succ fuel =>
      rw [Nat.add_zero] at hfree
      unfold tryInsertCollection
      dsimp only
      rw [if_neg (by simp [hfree])]
      simp
  | succ N ih =>
    intro fuel attempt s hfuel htaken hfree
    cases fuel with
    | zero => exact absurd hfuel (Nat.not_lt_zero _)
    | succ fuel =>
      have h0 : nameTaken s u (candidateName base attempt) = true := by
        have := htaken 0 (Nat.succ_pos _)
        rwa [Nat.add_zero] at this
      unfold tryInsertCollection
      dsimp only
      rw [if_pos h0]
      have he : attempt + (N + 1) = attempt + 1 + N := by omega
      rw [he] at hfree ⊢
      refine ih fuel (attempt + 1) s (Nat.lt_of_succ_lt_succ hfuel) ?_ hfree
      intro k hk
      have h1 := htaken (k + 1) (Nat.succ_lt_succ hk)
      have he2 : attempt + (k + 1) = attempt + 1 + k := by omega
      rwa [he2] at h1

theorem createCollection_eq_tryInsert (u name : String) (d : Option String)
    (s : DbState) (hname : name ≠ "") (hbase : strTrim name ≠ "") :
    createCollection u name d s =
      tryInsertCollection u (strTrim name) d 0 MAX_NAME_ATTEMPTS
        (ensureUserExists u s) := by
  have h1 := length_pos_of_ne_empty hname
  have h2 : (strTrim name == "") = false := by simpa using hbase
  simp [createCollection, h1, h2]

theorem createCollection_emptyTrim (u name : String) (d : Option String)
    (s : DbState) (hname : name ≠ "") (hbase : strTrim name = "") :
    createCollection u name d s =
      (Except.error ⟨400, "Name cannot be empty"⟩, ensureUserExists u s) := by
  have h1 := length_pos_of_ne_empty hname
  simp [createCollection, h1, hbase]

theorem createCollection_emptyName (u : String) (d : Option String)
    (s : DbState) :
    createCollection u "" d s =
      (Except.error ⟨400, "Invalid request body"⟩, s) := rfl

/-! ## The listing projector -/

theorem listCollections_sorted (u : String) (s : DbState) :
    (listCollections u s).Sorted listOrder :=
  List.sorted_insertionSort listOrder _

theorem listCollections_perm (u : String) (s : DbState) :
    (listCollections u s).Perm
      ((s.collections.filter (fun c => c.userId == u)).map (rowFor s)) :=
  List.perm_insertionSort listOrder _

theorem reachable_wsColl : Reachable wsColl :=
  Reachable.create "u" "C" none Reachable.init

theorem reachable_wsFull : Reachable wsFull :=
  Reachable.add "u" 1 "i5" none (Reachable.add "u" 1 "i4" none
    (Reachable.add "u" 1 "i3" none (Reachable.add "u" 1 "i2" none
      (Reachable.add "u" 1 "i1" none reachable_wsColl))))

/-! ## The claims -/

/-- C1: in every committed state reachable through the service operations no
collection holds more than 5 items, and an add-item or move-item that would
push a collection past 5 (all earlier checks passing, committed count already
5) fails with the capacity error and leaves the count at 5. -/
theorem C1_capacity_invariant :
    (∀ s, Reachable s → ∀ cid, itemCount s cid ≤ 5) ∧
    (∀ u cid itemId note s (col : CollectionRow), cid ≠ 0 → itemId ≠ "" →
      findCollection s cid u = some col → findItem s cid itemId = none →
      itemCount s cid = 5 →
      addItem u cid itemId note s =
          (Except.error ⟨400, "Collection is full"⟩, s) ∧
        itemCount (addItem u cid itemId note s).2 cid = 5) ∧
    (∀ u itemId src tgt s (colS colT : CollectionRow) (item : ItemRow),
      itemId ≠ "" → src ≠ 0 → tgt ≠ 0 → src ≠ tgt →
      findCollection s src u = some colS → findCollection s tgt u = some colT →
      findItem s src itemId = some item → itemCount s tgt = 5 →
      moveItem u itemId src tgt s =
          (Except.error ⟨400, "Target collection is full"⟩, s) ∧
        itemCount (moveItem u itemId src tgt s).2 tgt = 5) := by
  refine ⟨?_, ?_, ?_⟩
  · intro s hs cid
    exact reachable_capOK hs cid
  · intro u cid itemId note s col hcid hitm hcol hdup hcount
    have hfull : MAX_ITEMS_PER_COLLECTION ≤ itemCount s cid := le_of_eq hcount.symm
    have h := addItem_full u cid itemId note s hcid hitm hcol hdup hfull
    refine ⟨h, ?_⟩
    rw [h]
    exact hcount
  · intro u itemId src tgt s colS colT item hitm hsrc0 htgt0 hne hcolS hcolT hitem hcount
    have hfull : MAX_ITEMS_PER_COLLECTION ≤ itemCount s tgt := le_of_eq hcount.symm
    have h := moveItem_full u itemId src tgt s hitm hsrc0 htgt0 hne hcolS hcolT hitem hfull
    refine ⟨h, ?_⟩
    rw [h]
    exact hcount

theorem C1_capacity_invariant_witness :
    itemCount wsFull 1 ≤ 5 ∧
      (addItem "u" 1 "i6" none wsFull =
          (Except.error ⟨400, "Collection is full"⟩, wsFull) ∧
        itemCount (addItem "u" 1 "i6" none wsFull).2 1 = 5) ∧
      (moveItem "u" "m1" 2 1 wsTwo =
          (Except.error ⟨400, "Target collection is full"⟩, wsTwo) ∧
        itemCount (moveItem "u" "m1" 2 1 wsTwo).2 1 = 5) :=
  ⟨C1_capacity_invariant.1 wsFull reachable_wsFull 1,
   C1_capacity_invariant.2.1 "u" 1 "i6" none wsFull ⟨1, "u", "C", none, 0, 0⟩
     (by decide) (by decide) (by decide) (by decide) (by decide),
   C1_capacity_invariant.2.2 "u" "m1" 2 1 wsTwo ⟨2, "u", "S", none, 6, 6⟩
     ⟨1, "u", "C", none, 0, 0⟩ ⟨6, 2, "m1", none, 7⟩
     (by decide) (by decide) (by decide) (by decide) (by decide) (by decide)
     (by decide) (by decide)⟩

/-- C2: move-item is all-or-nothing — every failing run returns the pre-state
unchanged (so both counts are untouched and the item stays in the source), and
every successful run moves exactly one item: source count down by one, target
count up by one, the moved row landing in the target with the source item's
note carried over. -/
theorem C2_move_atomicity :
    (∀ u itemId src tgt s e s',
      moveItem u itemId src tgt s = (Except.error e, s') → s' = s) ∧
    (∀ u itemId src tgt s, WF s →
      (moveItem u itemId src tgt s).1 = Except.ok () →
      itemCount (moveItem u itemId src tgt s).2 src + 1 = itemCount s src ∧
        itemCount (moveItem u itemId src tgt s).2 tgt = itemCount s tgt + 1 ∧
        ∃ item, findItem s src itemId = some item ∧
          (⟨s.nextItemId, tgt, itemId, item.note, s.clock⟩ : ItemRow) ∈
            (moveItem u itemId src tgt s).2.collectionItems) := by
  constructor
  · intro u itemId src tgt s e s' h
    have h1 : (moveItem u itemId src tgt s).1 = Except.error e := by rw [h]
    have h2 := moveItem_error_state h1
    rw [h] at h2
    exact h2
  · intro u itemId src tgt s hwf hok
    exact moveItem_ok_counts hwf u itemId src tgt hok

theorem C2_move_atomicity_witness :
    wsTwo = wsTwo ∧
      (itemCount (moveItem "u" "x" 1 2 wsAB).2 1 + 1 = itemCount wsAB 1 ∧
        itemCount (moveItem "u" "x" 1 2 wsAB).2 2 = itemCount wsAB 2 + 1 ∧
        ∃ item, findItem wsAB 1 "x" = some item ∧
          (⟨wsAB.nextItemId, 2, "x", item.note, wsAB.clock⟩ : ItemRow) ∈
            (moveItem "u" "x" 1 2 wsAB).2.collectionItems) :=
  ⟨C2_move_atomicity.1 "u" "m1" 2 1 wsTwo ⟨400, "Target collection is full"⟩
     wsTwo rfl,
   C2_move_atomicity.2 "u" "x" 1 2 wsAB
     (show (wsAB.collectionItems.map ItemRow.id).Nodup ∧
         ∀ r ∈ wsAB.collectionItems, r.id < wsAB.nextItemId from
       ⟨by decide, by decide⟩)
     rfl⟩

/-- C3: the listing aggregation as the code computes it, at a user owning one
collection with zero items. Item counts and per-item weights follow the claim
(2 for a non-empty trimmed note, 1 otherwise), but the zero-item collection is
reported with relevanceScore 1, not 0: the LEFT JOIN pads the empty collection
with one all-NULL item row, `btrim(NULL) <> ''` is NULL, the CASE falls to
`ELSE 1`, and the SUM over that one padded row is 1 — the outer
COALESCE(..., 0) never sees a NULL, so it cannot restore 0. -/
theorem C3_empty_collection_score :
    listCollections "u" wsColl =
      [{ id := 1, name := "C", description := none, createdAt := 0,
         updatedAt := 0, itemCount := 0, relevanceScore := 1 }] ∧
      itemWeight ⟨1, 1, "x", some "note", 0⟩ = 2 ∧
      itemWeight ⟨1, 1, "x", some "   ", 0⟩ = 1 ∧
      itemWeight ⟨1, 1, "x", none, 0⟩ = 1 := by
  refine ⟨?_, by decide, by decide, by decide⟩
  decide

/-- C4: the capacity trigger raises `'Collection is full'` with SQLSTATE
P0001, but `isLimitViolation` looks for the substring "limit reached", so the
trigger's error is NOT remapped to the 400 capacity response: both item
routes rethrow it and the top-level handler answers 500 Internal. The
unique-index half of the remap (SQLSTATE 23505 to 409) does work. -/
theorem C4_trigger_error_not_remapped :
    isLimitViolation triggerCapacityError = false ∧
      addItemCatch triggerCapacityError = ⟨500, "Internal Server Error"⟩ ∧
      moveItemCatch triggerCapacityError = ⟨500, "Internal Server Error"⟩ ∧
      addItemCatch duplicateItemError =
        ⟨409, "Item already exists in collection"⟩ ∧
      moveItemCatch duplicateItemError =
        ⟨409, "Item already exists in target collection"⟩ := by
  refine ⟨?_, ?_, ?_, ?_, ?_⟩ <;> decide

/-- C5: the naming resolver tries the trimmed base name first; after N
uniqueness conflicts (candidates 0..N-1 already taken) the candidate it
inserts is exactly `"<base> (N)"`; at most 25 attempts are made, and when all
25 candidates are taken the operation fails with the 500
"Failed to generate unique collection name", never a silent fallback. -/
theorem C5_naming_resolver :
    (∀ base : String, candidateName base 0 = base ∧
      ∀ N : Nat, 0 < N →
        candidateName base N = base ++ " (" ++ toString N ++ ")") ∧
    (∀ u name d s N, name ≠ "" → strTrim name ≠ "" → N < MAX_NAME_ATTEMPTS →
      (∀ k, k < N → nameTaken s u (candidateName (strTrim name) k) = true) →
      nameTaken s u (candidateName (strTrim name) N) = false →
      (createCollection u name d s).1 = Except.ok
        ⟨(ensureUserExists u s).nextCollectionId, u,
          candidateName (strTrim name) N, d, (ensureUserExists u s).clock,
          (ensureUserExists u s).clock⟩) ∧
    (∀ u name d s, name ≠ "" → strTrim name ≠ "" →
      (∀ k, k < MAX_NAME_ATTEMPTS →
        nameTaken s u (candidateName (strTrim name) k) = true) →
      createCollection u name d s =
        (Except.error ⟨500, "Failed to generate unique collection name"⟩,
          ensureUserExists u s)) := by
  refine ⟨?_, ?_, ?_⟩
  · intro base
    refine ⟨rfl, ?_⟩
    intro N hN
    have h : (N == 0) = false := by
      simpa using Nat.pos_iff_ne_zero.mp hN
    simp [candidateName, h]
  · intro u name d s N hname hbase hN htaken hfree
    rw [createCollection_eq_tryInsert u name d s hname hbase]
    have htaken' : ∀ k, k < N →
        nameTaken (ensureUserExists u s) u (candidateName (strTrim name) (0 + k)) = true := by
      intro k hk
      rw [nameTaken_ensureUserExists, Nat.zero_add]
      exact htaken k hk
    have hfree' :
        nameTaken (ensureUserExists u s) u (candidateName (strTrim name) (0 + N)) = false := by
      rw [nameTaken_ensureUserExists, Nat.zero_add]
      exact hfree
    have h := tryInsert_success u (strTrim name) d N MAX_NAME_ATTEMPTS 0
      (ensureUserExists u s) hN htaken' hfree'
    rw [h]
    rw [Nat.zero_add]
  · intro u name d s hname hbase htaken
    rw [createCollection_eq_tryInsert u name d s hname hbase]
    refine tryInsert_exhaust u (strTrim name) d MAX_NAME_ATTEMPTS 0
      (ensureUserExists u s) ?_
    intro k hk
    rw [nameTaken_ensureUserExists, Nat.zero_add]
    exact htaken k hk

theorem C5_naming_resolver_witness :
    (candidateName "A" 0 = "A" ∧ candidateName "A" 2 = "A (2)") ∧
      (createCollection "u" "A" none wsNames).1 = Except.ok
        ⟨(ensureUserExists "u" wsNames).nextCollectionId, "u",
          candidateName (strTrim "A") 2, none,
          (ensureUserExists "u" wsNames).clock,
          (ensureUserExists "u" wsNames).clock⟩ ∧
      createCollection "u" "A" none wsExhaust =
        (Except.error ⟨500, "Failed to generate unique collection name"⟩,
          ensureUserExists "u" wsExhaust) :=
  ⟨⟨(C5_naming_resolver.1 "A").1,
    ((C5_naming_resolver.1 "A").2 2 (by decide)).trans (by decide)⟩,
   C5_naming_resolver.2.1 "u" "A" none wsNames 2 (by decide) (by decide)
     (by decide)
     (by
       intro k hk
       have hall : ((List.range 2).all fun k =>
           nameTaken wsNames "u" (candidateName (strTrim "A") k)) = true := by
         decide
       exact List.all_eq_true.mp hall k (List.mem_range.mpr hk))
     (by decide),
   C5_naming_resolver.2.2 "u" "A" none wsExhaust (by decide) (by decide)
     (by
       intro k hk
       have hall : ((List.range 25).all fun k =>
           nameTaken wsExhaust "u" (candidateName (strTrim "A") k)) = true := by
         decide
       exact List.all_eq_true.mp hall k (List.mem_range.mpr hk))⟩

/-- C6: add-item answers 404 "Collection not found" when the collection is
missing or owned by someone else, 409 "Item already exists in collection" on a
duplicate (collection, item id) pair, and 400 "Collection is full" at the
capacity ceiling — three pairwise distinct responses; and a second add of the
same item id to the same collection fails with the 409 conflict, leaving the
count where the first add put it (1 for a previously empty collection). -/
theorem C6_addItem_errors :
    (∀ u cid itemId note s, cid ≠ 0 → itemId ≠ "" →
      findCollection s cid u = none →
      addItem u cid itemId note s =
        (Except.error ⟨404, "Collection not found"⟩, s)) ∧
    (∀ u cid itemId note s (col : CollectionRow) (r : ItemRow),
      cid ≠ 0 → itemId ≠ "" →
      findCollection s cid u = some col → findItem s cid itemId = some r →
      addItem u cid itemId note s =
        (Except.error ⟨409, "Item already exists in collection"⟩, s)) ∧
    (∀ u cid itemId note s (col : CollectionRow), cid ≠ 0 → itemId ≠ "" →
      findCollection s cid u = some col → findItem s cid itemId = none →
      5 ≤ itemCount s cid →
      addItem u cid itemId note s =
        (Except.error ⟨400, "Collection is full"⟩, s)) ∧
    ((⟨404, "Collection not found"⟩ : ErrResp) ≠
        ⟨409, "Item already exists in collection"⟩ ∧
      (⟨404, "Collection not found"⟩ : ErrResp) ≠ ⟨400, "Collection is full"⟩ ∧
      (⟨409, "Item already exists in collection"⟩ : ErrResp) ≠
        ⟨400, "Collection is full"⟩) ∧
    (∀ u cid itemId note note2 s,
      (addItem u cid itemId note s).1 = Except.ok () →
      addItem u cid itemId note2 (addItem u cid itemId note s).2 =
          (Except.error ⟨409, "Item already exists in collection"⟩,
            (addItem u cid itemId note s).2) ∧
        itemCount (addItem u cid itemId note s).2 cid = itemCount s cid + 1) := by
  refine ⟨?_, ?_, ?_, ⟨by decide, by decide, by decide⟩, ?_⟩
  · intro u cid itemId note s h1 h2 h3
    exact addItem_notFound u cid itemId note s h1 h2 h3
  · intro u cid itemId note s col r h1 h2 hcol hdup
    exact addItem_conflict u cid itemId note s h1 h2 hcol hdup
  · intro u cid itemId note s col h1 h2 hcol hdup hfull
    exact addItem_full u cid itemId note s h1 h2 hcol hdup hfull
  · intro u cid itemId note note2 s hok
    have hcid : cid ≠ 0 := by
      rintro rfl
      simp [addItem] at hok
    have hitm : itemId ≠ "" := by
      rintro rfl
      have h1 : (cid == 0) = false := by simpa using hcid
      simp [addItem, h1] at hok
    rcases addItem_post u cid itemId note s with ⟨⟨e, herr⟩, _⟩ |
      ⟨_, ⟨col, hcol⟩, hdup, hlt, heq⟩
    · rw [herr] at hok
      cases hok
    · obtain ⟨hfind, hcoll, hcount⟩ := addItem_ok_findItem u cid itemId note s hok
      have hcol2 : findCollection (addItem u cid itemId note s).2 cid u =
          some col := by
        rw [hcoll, hcol]
      exact ⟨addItem_conflict u cid itemId note2 _ hcid hitm hcol2 hfind, hcount⟩

theorem C6_addItem_errors_witness :
    addItem "v" 1 "x" none initState =
        (Except.error ⟨404, "Collection not found"⟩, initState) ∧
      addItem "u" 1 "x" none wsOne =
        (Except.error ⟨409, "Item already exists in collection"⟩, wsOne) ∧
      addItem "u" 1 "i6" none wsFull =
        (Except.error ⟨400, "Collection is full"⟩, wsFull) ∧
      (addItem "u" 1 "x" (some "n2") (addItem "u" 1 "x" none wsColl).2 =
          (Except.error ⟨409, "Item already exists in collection"⟩,
            (addItem "u" 1 "x" none wsColl).2) ∧
        itemCount (addItem "u" 1 "x" none wsColl).2 1 = itemCount wsColl 1 + 1) :=
  ⟨C6_addItem_errors.1 "v" 1 "x" none initState (by decide) (by decide) rfl,
   C6_addItem_errors.2.1 "u" 1 "x" none wsOne ⟨1, "u", "C", none, 0, 0⟩
     ⟨1, 1, "x", none, 1⟩ (by decide) (by decide) rfl rfl,
   C6_addItem_errors.2.2.1 "u" 1 "i6" none wsFull ⟨1, "u", "C", none, 0, 0⟩
     (by decide) (by decide) rfl rfl (by decide),
   C6_addItem_errors.2.2.2.2 "u" 1 "x" none (some "n2") wsColl rfl⟩

/-- C7: the listing is sorted by the `ORDER BY relevance_score DESC,
created_at DESC` order, it is a permutation of the caller's collections
(each annotated by `rowFor`), and on the spec's example — scores [2, 1, 2]
for collections created in order A, B, C — the returned order is [C, A, B]. -/
theorem C7_listing_order :
    (∀ u s, (listCollections u s).Sorted listOrder) ∧
    (∀ u s, (listCollections u s).Perm
      ((s.collections.filter (fun c => c.userId == u)).map (rowFor s))) ∧
    (∀ a b : ListRow, listOrder a b ↔
      (b.relevanceScore < a.relevanceScore ∨
        (a.relevanceScore = b.relevanceScore ∧ b.createdAt ≤ a.createdAt))) ∧
    ((listCollections "u" wsOrd).map ListRow.name = ["C", "A", "B"] ∧
      (listCollections "u" wsOrd).map ListRow.relevanceScore = [2, 2, 1]) := by
  refine ⟨listCollections_sorted, listCollections_perm, ?_, by decide, by decide⟩
  intro a b
  exact Iff.rfl

/-- C8: a create-collection request whose name trims to the empty string
fails with a 400 (the zod "Invalid request body" when the name is the empty
string itself, the "Name cannot be empty" validation otherwise) and inserts
no collection row. -/
theorem C8_empty_name_validation :
    ∀ u name d s, strTrim name = "" →
      (∃ e, (createCollection u name d s).1 = Except.error e ∧ e.status = 400) ∧
        (createCollection u name d s).2.collections = s.collections := by
  intro u name d s htrim
  by_cases hname : name = ""
  · subst hname
    rw [createCollection_emptyName]
    exact ⟨⟨_, rfl, rfl⟩, rfl⟩
  · rw [createCollection_emptyTrim u name d s hname htrim]
    exact ⟨⟨_, rfl, rfl⟩, (ensureUserExists_frame u s).1⟩

theorem C8_empty_name_validation_witness :
    (∃ e, (createCollection "u" "   " none initState).1 = Except.error e ∧
        e.status = 400) ∧
      (createCollection "u" "   " none initState).2.collections =
        initState.collections :=
  C8_empty_name_validation "u" "   " none initState (by decide)

/-- C9: when create-collection fails with the empty-trim "Name cannot be
empty" validation error (whitespace-only but non-empty name), the caller's
user row has already been upserted — the post-state's users table contains
the caller, so this validation failure does not leave the store unchanged. -/
theorem C9_user_upserted_before_validation :
    ∀ u name d s, name ≠ "" → strTrim name = "" →
      createCollection u name d s =
          (Except.error ⟨400, "Name cannot be empty"⟩, ensureUserExists u s) ∧
        ∃ r ∈ (createCollection u name d s).2.users, r.id = u := by
  intro u name d s hname htrim
  have h := createCollection_emptyTrim u name d s hname htrim
  refine ⟨h, ?_⟩
  rw [h]
  exact ensureUserExists_mem u s

theorem C9_user_upserted_before_validation_witness :
    (createCollection "u" "   " none initState =
        (Except.error ⟨400, "Name cannot be empty"⟩,
          ensureUserExists "u" initState) ∧
      ∃ r ∈ (createCollection "u" "   " none initState).2.users, r.id = "u") :=
  C9_user_upserted_before_validation "u" "   " none initState (by decide)
    (by decide)

/-- C10: add-item and move-item never write the users table; only
create-collection provisions the caller's user row (before inserting the
collection, so in every reachable state a collection's owner is in the users
table); hence for a caller with no user row — one never seen by
create-collection — no collection is owned by them, and both item routes fail
with their 404 not-found response, leaving the whole state (users table
included) unchanged. -/
theorem C10_item_routes_frame :
    (∀ u cid itemId note s, (addItem u cid itemId note s).2.users = s.users) ∧
    (∀ u itemId src tgt s, (moveItem u itemId src tgt s).2.users = s.users) ∧
    (∀ u s, Reachable s → (∀ r ∈ s.users, r.id ≠ u) →
      ∀ c ∈ s.collections, c.userId ≠ u) ∧
    (∀ u cid itemId note s, cid ≠ 0 → itemId ≠ "" →
      (∀ c ∈ s.collections, c.userId ≠ u) →
      addItem u cid itemId note s =
        (Except.error ⟨404, "Collection not found"⟩, s)) ∧
    (∀ u itemId src tgt s, itemId ≠ "" → src ≠ 0 → tgt ≠ 0 → src ≠ tgt →
      (∀ c ∈ s.collections, c.userId ≠ u) →
      moveItem u itemId src tgt s =
        (Except.error ⟨404, "Source collection not found"⟩, s)) := by
  refine ⟨?_, ?_, ?_, ?_, ?_⟩
  · intro u cid itemId note s
    exact (addItem_users_collections u cid itemId note s).1
  · intro u itemId src tgt s
    exact (moveItem_users_collections u itemId src tgt s).1
  · intro u s hs husers c hc hcu
    obtain ⟨r, hr, hrid⟩ := reachable_owners hs c hc
    exact husers r hr (hrid.trans hcu)
  · intro u cid itemId note s h1 h2 h3
    exact addItem_notFound u cid itemId note s h1 h2
      (findCollection_eq_none_of_not_owner h3 cid)
  · intro u itemId src tgt s h1 h2 h3 h4 h5
    exact moveItem_srcNotFound u itemId src tgt s h1 h2 h3 h4
      (findCollection_eq_none_of_not_owner h5 src)

theorem C10_item_routes_frame_witness :
    (addItem "v" 1 "x" none wsColl).2.users = wsColl.users ∧
      (moveItem "v" "x" 1 2 wsColl).2.users = wsColl.users ∧
      (∀ c ∈ wsColl.collections, c.userId ≠ "v") ∧
      addItem "v" 1 "x" none wsColl =
        (Except.error ⟨404, "Collection not found"⟩, wsColl) ∧
      moveItem "v" "x" 1 2 wsColl =
        (Except.error ⟨404, "Source collection not found"⟩, wsColl) :=
  ⟨C10_item_routes_frame.1 "v" 1 "x" none wsColl,
   C10_item_routes_frame.2.1 "v" "x" 1 2 wsColl,
   C10_item_routes_frame.2.2.1 "v" wsColl reachable_wsColl (by decide),
   C10_item_routes_frame.2.2.2.1 "v" 1 "x" none wsColl (by decide) (by decide)
     (by decide),
   C10_item_routes_frame.2.2.2.2 "v" "x" 1 2 wsColl (by decide) (by decide)
     (by decide) (by decide) (by decide)⟩
